import Mathlib

/-!
# Verification of the ASR upload script (src/app.py)

Shallow embedding of the pure logic of `src/app.py`:

* `calculate_bitrate` (lines 19-21): the bitrate formula, with Python `int()`
  truncation modeled by `pyInt` and the float `ZeroDivisionError` modeled as `none`.
* `is_valid_audio_format` (lines 29-32): the extension gate, with
  `os.path.splitext` (posix rules) modeled by `splitextExtension`.
* `transcribe_audio_groq` (lines 34-65): the HTTP response handling, including
  the `api_key` rewrapping in the except-clause (lines 62-64).
* the size gate and cleanup of `main` (lines 97-122): `selectInput` and `runPipeline`.

Python strings are modeled as `List Char`; Python floats as exact rationals `ℚ`.
-/

namespace ASR

/-- ASCII lowercasing of one character, as Python `str.lower` acts on the ASCII range. -/
def lowerChar (c : Char) : Char :=
  if c.toNat ≥ 65 && c.toNat ≤ 90 then Char.ofNat (c.toNat + 32) else c

/-- Python `str.lower` on the character list of a string (ASCII range). -/
def lowerStr (s : List Char) : List Char := s.map lowerChar

/-- Python substring test `needle in hay`. -/
def containsSub (needle : List Char) : List Char → Bool
  | [] => needle.isEmpty
  | c :: t => needle.isPrefixOf (c :: t) || containsSub needle t

/-- Python `int()` applied to a rational: truncation toward zero. -/
def pyInt (q : ℚ) : ℤ := if 0 ≤ q then ⌊q⌋ else ⌈q⌉

/-- `calculate_bitrate` from src/app.py lines 19-21:
`bitrate = (target_size * 8) / (1.048576 * duration); return int(bitrate)`.
A zero divisor raises `ZeroDivisionError` in Python, modeled as `none`. -/
def calculate_bitrate (duration target_size : ℚ) : Option ℤ :=
  if 1.048576 * duration = 0 then none
  else some (pyInt ((target_size * 8) / (1.048576 * duration)))

/-- The part of a posix path after the last `/` separator. -/
def basenameChars (cs : List Char) : List Char :=
  (cs.reverse.takeWhile (fun c => c ≠ '/')).reverse

/-- Strip the leading dots of a basename: `os.path.splitext` never lets a leading dot
start an extension. -/
def dropLeadingDots : List Char → List Char
  | [] => []
  | c :: t => if c = '.' then dropLeadingDots t else c :: t

/-- The suffix of a character list starting at its last `.`, when it has one. -/
def suffixFromLastDot : List Char → Option (List Char)
  | [] => none
  | c :: t =>
    match suffixFromLastDot t with
    | some e => some e
    | none => if c = '.' then some (c :: t) else none

/-- The extension component of `os.path.splitext` under posix rules: the substring from
the last dot of the basename, unless every character of the basename before that dot is
itself a dot (so dotfiles such as `.WAV` have no extension). -/
def splitextExtension (filename : List Char) : List Char :=
  match suffixFromLastDot (dropLeadingDots (basenameChars filename)) with
  | some e => e
  | none => []

/-- `is_valid_audio_format` from src/app.py lines 29-32. -/
def is_valid_audio_format (filename : List Char) : Bool :=
  let valid_formats :=
    [".mp3".data, ".mp4".data, ".mpeg".data, ".mpga".data, ".m4a".data,
     ".wav".data, ".webm".data]
  let extension := splitextExtension filename
  valid_formats.contains (lowerStr extension)

/-- An HTTP response from the transcription endpoint: status code, body text, and the
`text` field of the parsed JSON body when it is present. -/
structure HttpResponse where
  status_code : Nat
  text : List Char
  jsonTextField : Option (List Char)

/-- Message of the exception raised on a non-200 status, src/app.py line 58. -/
def apiFailMsg (body : List Char) : List Char := "API request failed: ".data ++ body

/-- Message substituted by the except-clause (src/app.py lines 62-64) when the caught
error mentions `api_key` case-insensitively. -/
def apiKeyMsg : List Char :=
  "Groq API key not set. Please set the GROQ_API_KEY environment variable.".data

/-- `transcribe_audio_groq` from src/app.py lines 34-65, as a function of the HTTP
response and the measured elapsed time.  On a non-200 status it raises
`API request failed: <body>`; the except-clause then replaces any error whose lowered
text mentions `api_key` by the generic key message.  On success it returns
`result.get('text', '')` and the elapsed time. -/
def transcribe_audio_groq (resp : HttpResponse) (elapsed : ℚ) :
    Except (List Char) (List Char × ℚ) :=
  if resp.status_code ≠ 200 then
    if containsSub "api_key".data (lowerStr (apiFailMsg resp.text)) then
      Except.error apiKeyMsg
    else
      Except.error (apiFailMsg resp.text)
  else
    Except.ok (resp.jsonTextField.getD "".data, elapsed)

/-- Per-session result state of `main` (src/app.py lines 80-83). -/
structure SessionState where
  transcript : List Char
  transcription_time : ℚ

/-- The input handed to transcription by `main` (src/app.py lines 100-110): either the
original uploaded temp file, or the compressed artifact produced at the given bitrate. -/
inductive TranscriptionInput
  | original
  | compressed (bitrate : Option ℤ)
deriving DecidableEq

/-- The size gate and bitrate selection of `main`, src/app.py lines 100-110: compress at
`calculate_bitrate duration (24.9 * 1024)` when the measured size exceeds 25 MB,
otherwise pass the original file through. -/
def selectInput (fileSizeMB duration : ℚ) : TranscriptionInput :=
  if fileSizeMB > 25 then
    TranscriptionInput.compressed (calculate_bitrate duration (24.9 * 1024))
  else
    TranscriptionInput.original

/-- Outcome of one run of the upload pipeline (src/app.py lines 112-122): the final
session state, the error banner when transcription failed, and which temporary files
were unlinked. -/
structure PipelineOutcome where
  state : SessionState
  errorShown : Option (List Char)
  deletedInput : Bool
  deletedCompressed : Bool

/-- The try/except and cleanup of `main`, src/app.py lines 112-122: the except-clause
swallows the transcription error (showing a banner, leaving session state unchanged),
and the unlink calls run unconditionally afterwards, the compressed file being unlinked
exactly when `file_size > 25`. -/
def runPipeline (st : SessionState) (fileSizeMB : ℚ) (resp : HttpResponse)
    (elapsed : ℚ) : PipelineOutcome :=
  match transcribe_audio_groq resp elapsed with
  | Except.ok (t, tm) =>
    { state := { transcript := t, transcription_time := tm }
      errorShown := none
      deletedInput := true
      deletedCompressed := decide (fileSizeMB > 25) }
  | Except.error e =>
    { state := st
      errorShown := some ("Transcription failed: ".data ++ e)
      deletedInput := true
      deletedCompressed := decide (fileSizeMB > 25) }

/-! ## Helper lemmas -/

theorem containsSub_characterisation (needle hay : List Char) :
    containsSub needle hay = true ↔ needle <:+: hay := by
  induction hay with
  | nil => simp [containsSub, List.isEmpty_iff, List.infix_nil]
  | cons c t ih =>
    simp [containsSub, List.isPrefixOf_iff_prefix, ih, List.infix_cons_iff]

theorem containsSub_body_apiFailMsg (body : List Char) :
    containsSub body (apiFailMsg body) = true :=
  (containsSub_characterisation body (apiFailMsg body)).mpr
    (List.suffix_append "API request failed: ".data body).isInfix

theorem calculate_bitrate_pos_eq (d s : ℚ) (hd : 0 < d) (hs : 0 ≤ s) :
    calculate_bitrate d s = some ⌊s * 8 / (1.048576 * d)⌋ := by
  have hc : (0:ℚ) < 1.048576 := by norm_num
  have hpos : (0:ℚ) < 1.048576 * d := mul_pos hc hd
  have hq : 0 ≤ s * 8 / (1.048576 * d) := by positivity
  unfold calculate_bitrate pyInt
  rw [if_neg hpos.ne', if_pos hq]

theorem calculate_bitrate_example_value :
    calculate_bitrate 60 (24.9 * 1024) = some 3242 := by
  rw [calculate_bitrate_pos_eq 60 (24.9 * 1024) (by norm_num) (by norm_num)]
  have h : ((24.9 : ℚ) * 1024) * 8 / (1.048576 * 60) = 51875/16 := by norm_num
  rw [h]
  have h2 : ⌊(51875/16 : ℚ)⌋ = 3242 := by rw [Int.floor_eq_iff] ; norm_num
  rw [h2]

theorem transcribe_non200_cases (resp : HttpResponse) (elapsed : ℚ)
    (h : resp.status_code ≠ 200) :
    transcribe_audio_groq resp elapsed =
      (if containsSub "api_key".data (lowerStr (apiFailMsg resp.text)) then
        Except.error apiKeyMsg
      else
        Except.error (apiFailMsg resp.text)) := by
  unfold transcribe_audio_groq
  rw [if_pos h]

/-! ## Claims -/

/-- C1: for every `duration_seconds > 0` and `target_size_kb > 0`,
`calculate_bitrate duration_seconds target_size_kb` returns
`⌊(target_size_kb * 8) / (1.048576 * duration_seconds)⌋` (the Python `int()`
truncation agrees with the floor on the positive value). -/
theorem C1_bitrate_formula (duration target_size : ℚ)
    (hd : 0 < duration) (hs : 0 < target_size) :
    calculate_bitrate duration target_size =
      some ⌊target_size * 8 / (1.048576 * duration)⌋ :=
  calculate_bitrate_pos_eq duration target_size hd hs.le

/-- Witness for C1 at duration 60 and target size 1024. -/
theorem C1_bitrate_formula_witness :
    calculate_bitrate 60 1024 = some ⌊(1024 : ℚ) * 8 / (1.048576 * 60)⌋ :=
  C1_bitrate_formula 60 1024 (by norm_num) (by norm_num)

/-- C2 counterexample: duration 8 > 0 and target size 1 > 0, yet
`calculate_bitrate 8 1 = some 0`, which is not strictly positive — the claim that the
result is always a positive integer fails. -/
theorem C2_counterexample :
    (0:ℚ) < 8 ∧ (0:ℚ) < 1 ∧ calculate_bitrate 8 1 = some 0 ∧ ¬ (0:ℤ) < 0 := by
  refine ⟨by norm_num, by norm_num, ?_, by norm_num⟩
  rw [calculate_bitrate_pos_eq 8 1 (by norm_num) (by norm_num)]
  have h : (1 : ℚ) * 8 / (1.048576 * 8) = 15625/16384 := by norm_num
  rw [h]
  have h2 : ⌊(15625/16384 : ℚ)⌋ = 0 := by rw [Int.floor_eq_iff] ; norm_num
  rw [h2]

/-- C2 amended: for all `d > 0` and `s > 0`, `calculate_bitrate d s` returns a
nonnegative integer, and that integer is strictly positive whenever
`1.048576 * d ≤ s * 8` (that is, whenever the exact rate is at least 1 kbps). -/
theorem C2_nonneg (d s : ℚ) (hd : 0 < d) (hs : 0 < s) :
    ∃ k : ℤ, calculate_bitrate d s = some k ∧ 0 ≤ k ∧
      (1.048576 * d ≤ s * 8 → 0 < k) := by
  have hc : (0:ℚ) < 1.048576 := by norm_num
  have hpos : (0:ℚ) < 1.048576 * d := mul_pos hc hd
  refine ⟨⌊s * 8 / (1.048576 * d)⌋, calculate_bitrate_pos_eq d s hd hs.le, ?_, ?_⟩
  · exact Int.le_floor.mpr (by push_cast; positivity)
  · intro hle
    have h1 : (1:ℚ) ≤ s * 8 / (1.048576 * d) := (one_le_div hpos).mpr hle
    exact Int.le_floor.mpr (by push_cast; exact h1)

/-- Witness for C2 amended at duration 60 and target size 24.9*1024. -/
theorem C2_nonneg_witness :
    ∃ k : ℤ, calculate_bitrate 60 (24.9 * 1024) = some k ∧ 0 ≤ k ∧
      ((1.048576 : ℚ) * 60 ≤ 24.9 * 1024 * 8 → 0 < k) :=
  C2_nonneg 60 (24.9 * 1024) (by norm_num) (by norm_num)

/-- C3: `calculate_bitrate` is monotonically non-increasing in the duration and
non-decreasing in the target size: for `d1 ≥ d2 > 0` and `s1 ≥ s2 > 0`, with `d, s`
positive, `calculate_bitrate d1 s ≤ calculate_bitrate d2 s` and
`calculate_bitrate d s2 ≤ calculate_bitrate d s1` (on the returned values). -/
theorem C3_monotone (d1 d2 s1 s2 d s : ℚ) (hd2 : 0 < d2) (hd21 : d2 ≤ d1)
    (hs2 : 0 < s2) (hs21 : s2 ≤ s1) (hd : 0 < d) (hs : 0 < s) :
    (∃ k1 k2 : ℤ, calculate_bitrate d1 s = some k1 ∧
      calculate_bitrate d2 s = some k2 ∧ k1 ≤ k2) ∧
    (∃ m1 m2 : ℤ, calculate_bitrate d s1 = some m1 ∧
      calculate_bitrate d s2 = some m2 ∧ m2 ≤ m1) := by
  have hc : (0:ℚ) < 1.048576 := by norm_num
  have hd1 : 0 < d1 := lt_of_lt_of_le hd2 hd21
  have hs1 : 0 < s1 := lt_of_lt_of_le hs2 hs21
  constructor
  · refine ⟨_, _, calculate_bitrate_pos_eq d1 s hd1 hs.le,
      calculate_bitrate_pos_eq d2 s hd2 hs.le, Int.floor_le_floor ?_⟩
    exact div_le_div_of_nonneg_left (by positivity) (by positivity)
      (mul_le_mul_of_nonneg_left hd21 hc.le)
  · refine ⟨_, _, calculate_bitrate_pos_eq d s1 hd hs1.le,
      calculate_bitrate_pos_eq d s2 hd hs2.le, Int.floor_le_floor ?_⟩
    exact div_le_div_of_nonneg_right
      (mul_le_mul_of_nonneg_right hs21 (by norm_num)) (by positivity)

/-- Witness for C3 at d1 = 120, d2 = 60, s1 = 2048, s2 = 1024, d = 60, s = 1024. -/
theorem C3_monotone_witness :
    (∃ k1 k2 : ℤ, calculate_bitrate 120 1024 = some k1 ∧
      calculate_bitrate 60 1024 = some k2 ∧ k1 ≤ k2) ∧
    (∃ m1 m2 : ℤ, calculate_bitrate 60 2048 = some m1 ∧
      calculate_bitrate 60 1024 = some m2 ∧ m2 ≤ m1) :=
  C3_monotone 120 60 2048 1024 60 1024 (by norm_num) (by norm_num) (by norm_num)
    (by norm_num) (by norm_num) (by norm_num)

/-- C4 counterexample: `calculate_bitrate 60 (24.9 * 1024)` returns 3242, not 3255
(the exact quotient is 51875/16 = 3242.1875, and 3255 would correspond to a 25*1024
target instead). -/
theorem C4_counterexample :
    calculate_bitrate 60 (24.9 * 1024) ≠ some 3255 := by
  rw [calculate_bitrate_example_value]
  intro h
  exact absurd (Option.some.inj h) (by norm_num)

/-- C4 amended: `calculate_bitrate` applied to duration 60 seconds and target size
24.9*1024 kilobytes returns 3242. -/
theorem C4_example_value :
    calculate_bitrate 60 (24.9 * 1024) = some 3242 :=
  calculate_bitrate_example_value

/-- C5 counterexample: on the bare dotfile name `.WAV`, `os.path.splitext` yields an
empty extension, so `is_valid_audio_format ".WAV"` is `false`, not `true` as the claim
asserts. -/
theorem C5_counterexample : is_valid_audio_format ".WAV".data = false := by decide

/-- C5 amended: `is_valid_audio_format filename` is `true` exactly when the
`os.path.splitext` extension of the filename, lowercased, is one of `.mp3`, `.mp4`,
`.mpeg`, `.mpga`, `.m4a`, `.wav`, `.webm`; in particular `.txt`-suffixed names and
extensionless names are rejected and `a.WAV` is accepted, but the bare dotfile `.WAV`
is rejected because its only dot is a leading dot and splitext assigns it no
extension. -/
theorem C5_format_gate (filename : List Char) :
    (is_valid_audio_format filename = true ↔
      lowerStr (splitextExtension filename) ∈
        [".mp3".data, ".mp4".data, ".mpeg".data, ".mpga".data, ".m4a".data,
         ".wav".data, ".webm".data]) ∧
    is_valid_audio_format ".txt".data = false ∧
    is_valid_audio_format "a.txt".data = false ∧
    is_valid_audio_format "noext".data = false ∧
    is_valid_audio_format "a.WAV".data = true ∧
    is_valid_audio_format "b.mp3".data = true ∧
    is_valid_audio_format ".WAV".data = false := by
  refine ⟨?_, by decide, by decide, by decide, by decide, by decide, by decide⟩
  unfold is_valid_audio_format
  simp [List.contains]

/-- C6: the compression step runs exactly when the measured size exceeds 25 MB; when it
runs, the bitrate handed to the compressor is `calculate_bitrate duration (24.9 * 1024)`,
and otherwise the original file is passed to transcription unchanged. -/
theorem C6_size_gate (fileSizeMB duration : ℚ) :
    (25 < fileSizeMB →
      selectInput fileSizeMB duration =
        TranscriptionInput.compressed (calculate_bitrate duration (24.9 * 1024))) ∧
    (¬ 25 < fileSizeMB →
      selectInput fileSizeMB duration = TranscriptionInput.original) := by
  unfold selectInput
  constructor
  · intro h; rw [if_pos h]
  · intro h; rw [if_neg h]

/-- Witness for C6 at sizes 30 MB (compressed) and 10 MB (passed through). -/
theorem C6_size_gate_witness :
    selectInput 30 60 =
      TranscriptionInput.compressed (calculate_bitrate 60 (24.9 * 1024)) ∧
    selectInput 10 60 = TranscriptionInput.original :=
  ⟨(C6_size_gate 30 60).1 (by norm_num), (C6_size_gate 10 60).2 (by norm_num)⟩

/-- C7 counterexample: on a 401 response whose body mentions `api_key`, the
except-clause replaces the error with the generic key message, which does not contain
the response body — so the surfaced error does not always carry the body text. -/
theorem C7_counterexample :
    transcribe_audio_groq ⟨401, "Invalid api_key".data, none⟩ 0 =
      Except.error apiKeyMsg ∧
    containsSub "Invalid api_key".data apiKeyMsg = false :=
  ⟨rfl, by decide⟩

/-- C7 amended: on every non-200 response, `transcribe_audio_groq` fails with an error
message; that message contains the response body unless the lowered failure message
mentions `api_key` (then it is the generic key message instead); in either case the
pipeline leaves the previously stored transcript state unchanged and surfaces the
error banner. -/
theorem C7_non200 (resp : HttpResponse) (elapsed : ℚ) (st : SessionState) (sz : ℚ)
    (h : resp.status_code ≠ 200) :
    ∃ e, transcribe_audio_groq resp elapsed = Except.error e ∧
      (containsSub "api_key".data (lowerStr (apiFailMsg resp.text)) = false →
        containsSub resp.text e = true) ∧
      (runPipeline st sz resp elapsed).state = st ∧
      (runPipeline st sz resp elapsed).errorShown =
        some ("Transcription failed: ".data ++ e) := by
  have hif := transcribe_non200_cases resp elapsed h
  by_cases hk : containsSub "api_key".data (lowerStr (apiFailMsg resp.text)) = true
  · rw [hif, if_pos hk]
    have hE : transcribe_audio_groq resp elapsed = Except.error apiKeyMsg := by
      rw [hif, if_pos hk]
    exact ⟨apiKeyMsg, rfl, fun hfalse => absurd hk (by rw [hfalse]; decide),
      by simp [runPipeline, hE], by simp [runPipeline, hE]⟩
  · rw [hif, if_neg hk]
    have hE : transcribe_audio_groq resp elapsed =
        Except.error (apiFailMsg resp.text) := by
      rw [hif, if_neg hk]
    exact ⟨apiFailMsg resp.text, rfl,
      fun _ => containsSub_body_apiFailMsg resp.text,
      by simp [runPipeline, hE], by simp [runPipeline, hE]⟩

/-- Witness for C7 amended: a 401 response with body `Unauthorized`. -/
theorem C7_non200_witness :
    ∃ e, transcribe_audio_groq ⟨401, "Unauthorized".data, none⟩ 0 = Except.error e ∧
      (containsSub "api_key".data
          (lowerStr (apiFailMsg (⟨401, "Unauthorized".data, none⟩ : HttpResponse).text))
          = false →
        containsSub (⟨401, "Unauthorized".data, none⟩ : HttpResponse).text e = true) ∧
      (runPipeline ⟨"old".data, 5⟩ 10 ⟨401, "Unauthorized".data, none⟩ 0).state =
        ⟨"old".data, 5⟩ ∧
      (runPipeline ⟨"old".data, 5⟩ 10 ⟨401, "Unauthorized".data, none⟩ 0).errorShown =
        some ("Transcription failed: ".data ++ e) :=
  C7_non200 ⟨401, "Unauthorized".data, none⟩ 0 ⟨"old".data, 5⟩ 10 (by decide)

/-- C8 counterexample: with a 30 MB input (compressed) and a failing 401 transcription,
the pipeline still unlinks the compressed temporary file — deletion is attempted on the
failure path, contrary to the claim. -/
theorem C8_counterexample :
    (runPipeline ⟨"old".data, 0⟩ 30 ⟨401, "Unauthorized".data, none⟩ 0).errorShown ≠
      none ∧
    (runPipeline ⟨"old".data, 0⟩ 30 ⟨401, "Unauthorized".data, none⟩ 0).deletedCompressed
      = true := by
  constructor
  · intro h; exact Option.noConfusion (show some _ = (none : Option (List Char)) from h)
  · rfl

/-- C8 amended: the except-clause swallows the transcription error, so the cleanup code
after it always runs: whenever the input exceeded the size limit (so a compressed file
exists), both the input temp file and the compressed temp file are unlinked, whether or
not the transcription call threw. -/
theorem C8_cleanup (st : SessionState) (sz : ℚ) (resp : HttpResponse) (elapsed : ℚ)
    (hsz : 25 < sz) :
    (runPipeline st sz resp elapsed).deletedInput = true ∧
    (runPipeline st sz resp elapsed).deletedCompressed = true := by
  unfold runPipeline
  cases hE : transcribe_audio_groq resp elapsed with
  | ok p => cases p with
    | mk t tm => exact ⟨rfl, decide_eq_true hsz⟩
  | error e => exact ⟨rfl, decide_eq_true hsz⟩

/-- Witness for C8 amended at size 30 MB and a 401 response. -/
theorem C8_cleanup_witness :
    (runPipeline ⟨"old".data, 0⟩ 30 ⟨401, "Unauthorized".data, none⟩ 0).deletedInput
      = true ∧
    (runPipeline ⟨"old".data, 0⟩ 30 ⟨401, "Unauthorized".data, none⟩ 0).deletedCompressed
      = true :=
  C8_cleanup ⟨"old".data, 0⟩ 30 ⟨401, "Unauthorized".data, none⟩ 0 (by norm_num)

/-- C9: `calculate_bitrate` guards nothing: for every positive duration the division is
well-defined and a value is returned, while at duration 0 the division fails (modeled
as `none`, the Python `ZeroDivisionError`) — no code path rejects zero-length input. -/
theorem C9_zero_guard :
    (∀ d s : ℚ, 0 < d → ∃ k : ℤ, calculate_bitrate d s = some k) ∧
    (∀ s : ℚ, calculate_bitrate 0 s = none) := by
  constructor
  · intro d s hd
    have hc : (0:ℚ) < 1.048576 := by norm_num
    have hpos : (0:ℚ) < 1.048576 * d := mul_pos hc hd
    exact ⟨_, by unfold calculate_bitrate; rw [if_neg hpos.ne']⟩
  · intro s
    unfold calculate_bitrate
    rw [if_pos (mul_zero _)]

/-- Witness for C9 at duration 1 (defined) and duration 0 (failing). -/
theorem C9_zero_guard_witness :
    (∃ k : ℤ, calculate_bitrate 1 8 = some k) ∧ calculate_bitrate 0 8 = none :=
  ⟨C9_zero_guard.1 1 8 (by norm_num), C9_zero_guard.2 8⟩

/-- C10: on an HTTP 200 response whose JSON body lacks a `text` field,
`transcribe_audio_groq` succeeds and returns the empty transcript together with the
elapsed time, rather than raising. -/
theorem C10_missing_text (resp : HttpResponse) (elapsed : ℚ)
    (h200 : resp.status_code = 200) (hjson : resp.jsonTextField = none) :
    transcribe_audio_groq resp elapsed = Except.ok ("".data, elapsed) := by
  unfold transcribe_audio_groq
  rw [if_neg (by simp [h200]), hjson]
  rfl

/-- Witness for C10: a 200 response with no `text` field. -/
theorem C10_missing_text_witness :
    transcribe_audio_groq ⟨200, "ok".data, none⟩ 7 = Except.ok ("".data, 7) :=
  C10_missing_text ⟨200, "ok".data, none⟩ 7 rfl rfl

end ASR
